import Mathlib

/-!
Shallow embedding of the gmail spam handler (`gmail_spam_checker.py` and
`spam_classifier.py`) and proofs of its triage, labelling and failure-recovery
properties.

Modelling conventions:
* probabilities are rationals (`ℚ`); the Python floats `0.95`, `0.0` become the
  exact rationals `0.95`, `0`;
* a Python call that may raise is modelled as a value of `Except String _`
  supplied by the environment (the Gmail API, the network);
* the instrumentation needed by the properties is explicit: the triage function
  also returns the list of texts submitted to the classifier, and the label
  registry also returns the list of label-creation requests it issued.
-/

namespace GmailSpam

/-! ### Module-level constants (gmail_spam_checker.py, lines 14-19) -/

/-- Reserved name of the processed label: `PROCESSED_LABEL_NAME = 'ML_PROCESSED'`. -/
def PROCESSED_LABEL_NAME : String := "ML_PROCESSED"

/-- Poll interval: `POLL_INTERVAL_SECONDS = 60`. -/
def POLL_INTERVAL_SECONDS : Nat := 60

/-- Spam threshold: `SPAM_CONFIDENCE_THRESHOLD = 0.95`, as an exact rational. -/
def SPAM_CONFIDENCE_THRESHOLD : ℚ := 0.95

/-- Trusted sender substrings: `TRUSTED_DOMAINS = ['@google.com', '@gmail.com',
'@github.com', '@microsoft.com', '@amazon.com']`. -/
def TRUSTED_DOMAINS : List String :=
  ["@google.com", "@gmail.com", "@github.com", "@microsoft.com", "@amazon.com"]

/-! ### Data model -/

/-- One entry of `email['payload']['headers']`: a `{name, value}` pair. -/
structure Header where
  headerName : String
  value : String
deriving DecidableEq, Repr

/-- The metadata-format message returned by
`service.users().messages().get(userId='me', id=..., format='metadata')`:
an id, the header list, and a snippet. -/
structure RawEmail where
  id : String
  headers : List Header
  snippet : String
deriving DecidableEq, Repr

/-- The fields the triage code extracts from a raw email. -/
structure Message where
  id : String
  subject : String
  sender : String
  snippet : String
deriving DecidableEq, Repr

/-- A Gmail label as returned by `service.users().labels().list`: an id and a name. -/
structure Label where
  id : String
  labelName : String
deriving DecidableEq, Repr

/-- The body passed to `service.users().labels().create` (lines 61-65). -/
structure LabelBody where
  labelName : String
  labelListVisibility : String
  messageListVisibility : String
deriving DecidableEq, Repr

/-- The label mutation submitted for one message:
`body={'addLabelIds': labels_to_add, 'removeLabelIds': labels_to_remove}`. -/
structure TriageOutcome where
  message_id : String
  labels_added : List String
  labels_removed : List String
deriving DecidableEq, Repr

/-- The three possible routes for a message in `poll_gmail`'s per-message branch
(lines 117-130): trusted bypass, spam, or ham. -/
inductive Decision where
  | Trusted
  | Spam
  | Ham
deriving DecidableEq, Repr

/-- Python's `headers = {h['name']: h['value'] for h in ...}` keeps the last
value for a duplicated name, and `.get(key, default)` falls back to the default:
the last header with the given name, or the default. -/
def headerValue (hs : List Header) (key dflt : String) : String :=
  match hs.reverse.find? (fun h => h.headerName == key) with
  | some h => h.value
  | none => dflt

/-- Lines 112-115: extract subject (default `'[No Subject]'`), sender
(default `'[No Sender]'`) and snippet from a fetched email. -/
def parseEmail (e : RawEmail) : Message :=
  ⟨e.id, headerValue e.headers "Subject" "[No Subject]",
    headerValue e.headers "From" "[No Sender]", e.snippet⟩

/-! ### SpamClassifier (spam_classifier.py) -/

/-- Model of the `SpamClassifier` class. The external torch model — tokenizer,
`AutoModelForSequenceClassification`, `softmax(outputs.logits, dim=-1)` and
`predictions[:, 1].tolist()` — is abstracted by the per-text probability
`spamProb`: softmax along `dim=-1` acts on each logits row separately, row `i`
of the model output depends only on input text `i` (padding is masked), and
`[:, 1].tolist()` selects one probability per row in input order. `failing`
records whether the inference inside the `try` block raises. -/
structure SpamClassifier where
  spamProb : String → ℚ
  failing : Bool

/-- Lines 53-82 of spam_classifier.py: on success one probability per text in
order; on any exception, `[0.0] * len(texts)`. -/
def get_spam_probabilities_batch (c : SpamClassifier) (texts : List String) : List ℚ :=
  if c.failing then List.replicate texts.length 0
  else texts.map c.spamProb

/-- Lines 41-51: `return self.get_spam_probabilities_batch([text])[0]`. The
index `[0]` is total here because the batch result on a one-element list always
has length one (on both branches), so `headD` never falls back to its default. -/
def get_spam_probability (c : SpamClassifier) (text : String) : ℚ :=
  (get_spam_probabilities_batch c [text]).headD 0

/-! ### Triage engine (gmail_spam_checker.py, lines 117-130) -/

/-- Python's substring containment `pat in hay`: `pat` occurs contiguously in
`hay`. -/
def substrIn (pat hay : List Char) : Bool :=
  match hay with
  | [] => pat == []
  | _ :: t => pat.isPrefixOf hay || substrIn pat t

/-- Python's `str.lower()`, character by character (ASCII range). -/
def pyLower (s : List Char) : List Char := s.map Char.toLower

/-- Line 117: `any(domain in sender.lower() for domain in TRUSTED_DOMAINS)`. -/
def isTrusted (sender : String) : Bool :=
  TRUSTED_DOMAINS.any (fun domain => substrIn domain.toList (pyLower sender.toList))

/-- Line 122: `f"Subject: {subject} From: {sender} Body: {snippet}"`. -/
def textToClassify (m : Message) : String :=
  "Subject: " ++ m.subject ++ " From: " ++ m.sender ++ " Body: " ++ m.snippet

/-- The per-message decision of lines 117-130, instrumented with the list of
texts submitted to the classifier: a trusted sender short-circuits with no
classifier call; otherwise the concatenated text is classified once and the
strict comparison `spam_probability > threshold` picks spam versus ham. -/
def triageMessage (threshold : ℚ) (classify : String → ℚ) (m : Message) :
    Decision × List String :=
  if isTrusted m.sender then (Decision.Trusted, [])
  else
    let text := textToClassify m
    let p := classify text
    if p > threshold then (Decision.Spam, [text]) else (Decision.Ham, [text])

/-- The label mutation each branch submits (lines 119, 127, 130): trusted and
ham add the processed label and remove nothing; spam adds `SPAM` and removes
`INBOX` and does not add the processed label. -/
def applyDecision (processedLabelId : String) (msgId : String) :
    Decision → TriageOutcome
  | Decision.Trusted => ⟨msgId, [processedLabelId], []⟩
  | Decision.Ham => ⟨msgId, [processedLabelId], []⟩
  | Decision.Spam => ⟨msgId, ["SPAM"], ["INBOX"]⟩

/-! ### Label registry (gmail_spam_checker.py, lines 51-70) -/

/-- The fixed body of lines 61-65: reserved name, hidden from the label list UI
and from the message list UI. -/
def label_body : LabelBody := ⟨PROCESSED_LABEL_NAME, "labelHide", "hide"⟩

/-- Lines 51-70, `ensure_processed_label`, instrumented with the list of create
requests issued. The environment supplies the outcome of the `labels().list`
call and of a `labels().create` call. Scan the listed labels for an exact name
match and return its id with no create request; otherwise issue one create
request with `label_body` and return the created id. Any `HttpError` — from
listing or from creating — is caught and yields `none`. -/
def ensure_processed_label (listLabels : Except String (List Label))
    (create : LabelBody → Except String Label) : Option String × List LabelBody :=
  match listLabels with
  | Except.error _ => (none, [])
  | Except.ok labels =>
    match labels.find? (fun l => l.labelName == PROCESSED_LABEL_NAME) with
    | some l => (some l.id, [])
    | none =>
      match create label_body with
      | Except.ok created => (some created.id, [label_body])
      | Except.error _ => (none, [label_body])

/-! ### Label mutation (gmail_spam_checker.py, lines 73-82) -/

/-- Lines 73-82, `modify_message_labels`: submit the mutation to the provider
(`service.users().messages().modify`, abstracted by `provider`); an `HttpError`
is caught and logged — the returned `Option` is the logged `(message id, error)`
pair — and the function always returns normally. -/
def modify_message_labels (provider : String → List String → List String → Except String Unit)
    (msgId : String) (toAdd toRemove : List String) : Option (String × String) :=
  match provider msgId toAdd toRemove with
  | Except.ok _ => none
  | Except.error e => some (msgId, e)

/-! ### Poll loop (gmail_spam_checker.py, lines 85-137) -/

/-- What one cycle of the `while True` loop produced:
`attempted` — the label mutations submitted, in message order;
`modifyErrors` — the per-message modify failures caught and logged inside
`modify_message_labels`;
`cycleError` — the exception, if any, that escaped the message loop and was
caught by the cycle-level `except` handlers (lines 132-135). -/
structure BatchResult where
  attempted : List TriageOutcome
  modifyErrors : List (String × String)
  cycleError : Option String
deriving DecidableEq, Repr

/-- The environment of one cycle: the outcome of the `messages().list` call,
the outcome of each `messages().get` metadata fetch, and the outcome of each
`messages().modify` call (id, added ids, removed ids). -/
structure CycleInput where
  listResult : Except String (List String)
  fetch : String → Except String RawEmail
  modifyCall : String → List String → List String → Except String Unit

/-- The `for msg in messages` body of lines 109-130. Each message's metadata is
fetched; a fetch failure raises out of the `for` loop, so the remaining ids are
not processed and the exception becomes the cycle error. A fetched message is
parsed, triaged with the classifier at the fixed threshold, and its mutation is
submitted through `modify_message_labels`, whose failures are caught per
message and only logged. -/
def processBatch (c : SpamClassifier) (processedLabelId : String)
    (fetch : String → Except String RawEmail)
    (modifyCall : String → List String → List String → Except String Unit) :
    List String → BatchResult
  | [] => ⟨[], [], none⟩
  | msgId :: rest =>
    match fetch msgId with
    | Except.error e => ⟨[], [], some e⟩
    | Except.ok raw =>
      let m := parseEmail raw
      let d := (triageMessage SPAM_CONFIDENCE_THRESHOLD (get_spam_probability c) m).1
      let o := applyDecision processedLabelId raw.id d
      let logged := (modify_message_labels modifyCall raw.id o.labels_added o.labels_removed).toList
      let r := processBatch c processedLabelId fetch modifyCall rest
      ⟨o :: r.attempted, logged ++ r.modifyErrors, r.cycleError⟩

/-- One iteration of the `while True` loop (lines 98-137): list the candidate
ids, process them, and catch any exception — from the list call or from the
message loop — at cycle level. The function is total: every failure ends up in
`BatchResult`, never outside it, which is the meaning of the catch-all
`except` handlers. -/
def runCycle (c : SpamClassifier) (processedLabelId : String) (inp : CycleInput) :
    BatchResult :=
  match inp.listResult with
  | Except.error e => ⟨[], [], some e⟩
  | Except.ok ids => processBatch c processedLabelId inp.fetch inp.modifyCall ids

/-- The first `n` iterations of the `while True` loop, the environment of
iteration `k` given by `inputs k`. After every cycle — failed or not — the loop
sleeps and the next cycle begins, so iteration `n + 1` always extends
iteration `n`. -/
def runCycles (c : SpamClassifier) (processedLabelId : String)
    (inputs : Nat → CycleInput) : Nat → List BatchResult
  | 0 => []
  | n + 1 => runCycles c processedLabelId inputs n ++ [runCycle c processedLabelId (inputs n)]

/-- Lines 85-137, `poll_gmail`, with the milestone before the loop made
explicit: without credentials the run exits; if `ensure_processed_label`
produced no label id the run exits (lines 93-96) and no cycle is entered;
otherwise the loop runs with the resolved label id. The result is the list of
cycle results after `n` iterations. -/
def poll_gmail (credsOk : Bool) (listLabels : Except String (List Label))
    (create : LabelBody → Except String Label) (c : SpamClassifier)
    (inputs : Nat → CycleInput) (n : Nat) : List BatchResult :=
  if credsOk = false then []
  else
    match (ensure_processed_label listLabels create).1 with
    | none => []
    | some processedLabelId => runCycles c processedLabelId inputs n

/-- True when an `Except` value carries a success. -/
def exceptOk {ε α : Type} : Except ε α → Bool
  | Except.ok _ => true
  | Except.error _ => false

/-- The outcome the cycle submits for a message id whose fetch succeeds. -/
def outcomeForId (c : SpamClassifier) (processedLabelId : String)
    (fetch : String → Except String RawEmail) (msgId : String) : TriageOutcome :=
  match fetch msgId with
  | Except.ok raw =>
      applyDecision processedLabelId raw.id
        (triageMessage SPAM_CONFIDENCE_THRESHOLD (get_spam_probability c) (parseEmail raw)).1
  | Except.error _ => ⟨msgId, [], []⟩

/-! ### Theorems -/

/-- C1: for every message whose sender, after lower-casing, contains a
configured trusted-domain substring, the triage decision is `Trusted` and the
classifier is never invoked (the list of submitted texts is empty), for every
threshold, every classifier behaviour, and every subject and snippet. -/
theorem trusted_sender_bypasses_classifier (threshold : ℚ) (classify : String → ℚ)
    (m : Message)
    (h : ∃ domain ∈ TRUSTED_DOMAINS, substrIn domain.toList (pyLower m.sender.toList) = true) :
    triageMessage threshold classify m = (Decision.Trusted, []) := by
  have ht : isTrusted m.sender = true := by
    obtain ⟨d, hd, hsub⟩ := h
    exact List.any_eq_true.mpr ⟨d, hd, hsub⟩
  simp [triageMessage, ht]

/-- Witness for C1: a concrete trusted sender with a spammy subject and
snippet, and a classifier that would report certainty 1, is still routed to
`Trusted` with no classifier call. -/
theorem trusted_sender_bypasses_classifier_witness :
    triageMessage 0.95 (fun _ => 1)
      ⟨"m1", "You won a prize", "alerts@github.com", "click the link now"⟩ =
      (Decision.Trusted, []) :=
  trusted_sender_bypasses_classifier 0.95 (fun _ => 1) _
    ⟨"@github.com", by decide, by decide⟩

/-- C2: for every non-trusted message, the decision is `Spam` if and only if
the classifier probability strictly exceeds the threshold; at probability equal
to the threshold the decision is `Ham`; and the default threshold constant is
`0.95`. -/
theorem threshold_strict_boundary (threshold : ℚ) (classify : String → ℚ)
    (m : Message) (h : isTrusted m.sender = false) :
    ((triageMessage threshold classify m).1 = Decision.Spam ↔
      classify (textToClassify m) > threshold) ∧
    (classify (textToClassify m) = threshold →
      (triageMessage threshold classify m).1 = Decision.Ham) ∧
    SPAM_CONFIDENCE_THRESHOLD = 0.95 := by
  refine ⟨?_, ?_, rfl⟩
  · by_cases hp : classify (textToClassify m) > threshold
    · simp [triageMessage, h, hp]
    · simp [triageMessage, h, hp]
  · intro he
    simp [triageMessage, h, he]

/-- Witness for C2: a concrete non-trusted message whose classifier probability
equals the threshold exactly is routed to `Ham`. -/
theorem threshold_strict_boundary_witness :
    (triageMessage 0.95 (fun _ => (0.95 : ℚ))
      ⟨"m1", "hello", "eve@evil.biz", "snippet text"⟩).1 = Decision.Ham :=
  (threshold_strict_boundary 0.95 (fun _ => (0.95 : ℚ))
    ⟨"m1", "hello", "eve@evil.biz", "snippet text"⟩ (by decide)).2.1 rfl

/-- C3: the label mutation per decision — `Trusted` and `Ham` add exactly the
processed label and remove nothing; `Spam` adds exactly `SPAM` and removes
exactly `INBOX` and (the processed label id being distinct from the system id
`SPAM`) never adds the processed label; and no decision yields an empty
mutation. -/
theorem apply_decision_outcomes (processedLabelId msgId : String)
    (h : processedLabelId ≠ "SPAM") :
    applyDecision processedLabelId msgId Decision.Trusted = ⟨msgId, [processedLabelId], []⟩ ∧
    applyDecision processedLabelId msgId Decision.Ham = ⟨msgId, [processedLabelId], []⟩ ∧
    applyDecision processedLabelId msgId Decision.Spam = ⟨msgId, ["SPAM"], ["INBOX"]⟩ ∧
    processedLabelId ∉ (applyDecision processedLabelId msgId Decision.Spam).labels_added ∧
    ∀ d : Decision, (applyDecision processedLabelId msgId d).labels_added ≠ [] := by
  refine ⟨rfl, rfl, rfl, ?_, ?_⟩
  · simp [applyDecision, h]
  · intro d
    cases d <;> simp [applyDecision]

/-- Witness for C3: with the concrete processed label id `Label_7`, a `Spam`
decision adds `SPAM`, removes `INBOX`, and does not add `Label_7`. -/
theorem apply_decision_outcomes_witness :
    applyDecision "Label_7" "m1" Decision.Spam = ⟨"m1", ["SPAM"], ["INBOX"]⟩ ∧
    "Label_7" ∉ (applyDecision "Label_7" "m1" Decision.Spam).labels_added :=
  ⟨(apply_decision_outcomes "Label_7" "m1" (by decide)).2.2.1,
    (apply_decision_outcomes "Label_7" "m1" (by decide)).2.2.2.1⟩

/-- C5: when inference fails, the batch returns `0.0` for every input — a list
of the same length as the input, all zeroes — and consequently every
non-trusted message triaged through the broken classifier is routed to `Ham`,
never to `Spam`. -/
theorem classifier_failure_degrades_to_ham (c : SpamClassifier) (h : c.failing = true) :
    (∀ texts : List String,
      get_spam_probabilities_batch c texts = List.replicate texts.length 0) ∧
    (∀ m : Message, isTrusted m.sender = false →
      (triageMessage SPAM_CONFIDENCE_THRESHOLD (get_spam_probability c) m).1 = Decision.Ham ∧
      (triageMessage SPAM_CONFIDENCE_THRESHOLD (get_spam_probability c) m).1 ≠ Decision.Spam) := by
  have hp : ∀ t, get_spam_probability c t = 0 := by
    intro t
    simp [get_spam_probability, get_spam_probabilities_batch, h]
  refine ⟨fun texts => by simp [get_spam_probabilities_batch, h], fun m hm => ?_⟩
  have hno : ¬ get_spam_probability c (textToClassify m) > SPAM_CONFIDENCE_THRESHOLD := by
    rw [hp]
    norm_num [SPAM_CONFIDENCE_THRESHOLD]
  constructor
  · simp [triageMessage, hm, hno]
  · simp [triageMessage, hm, hno]

/-- Witness for C5: a concretely failing classifier returns `[0, 0]` on a
two-text batch and routes a concrete non-trusted message to `Ham`. -/
theorem classifier_failure_degrades_to_ham_witness :
    get_spam_probabilities_batch ⟨fun _ => 1, true⟩ ["text a", "text b"] = [0, 0] ∧
    (triageMessage SPAM_CONFIDENCE_THRESHOLD
      (get_spam_probability ⟨fun _ => 1, true⟩)
      ⟨"m1", "win big", "eve@evil.biz", "prize"⟩).1 = Decision.Ham :=
  ⟨((classifier_failure_degrades_to_ham ⟨fun _ => 1, true⟩ rfl).1 ["text a", "text b"]).trans rfl,
    ((classifier_failure_degrades_to_ham ⟨fun _ => 1, true⟩ rfl).2
      ⟨"m1", "win big", "eve@evil.biz", "prize"⟩ (by decide)).1⟩

/-- C9: single-text classification equals batch classification of the
singleton list at index 0; a two-element batch yields exactly the two
separately computed probabilities; and in general the batch result is the
order-preserving map of the single-text classifier, with the same length as
the input. -/
theorem batch_single_equivalence (c : SpamClassifier) :
    (∀ texts : List String,
      get_spam_probabilities_batch c texts = texts.map (get_spam_probability c)) ∧
    (∀ t, get_spam_probabilities_batch c [t] = [get_spam_probability c t]) ∧
    (∀ a b, get_spam_probabilities_batch c [a, b] =
      [get_spam_probability c a, get_spam_probability c b]) ∧
    (∀ texts : List String,
      (get_spam_probabilities_batch c texts).length = texts.length) := by
  have key : ∀ texts : List String,
      get_spam_probabilities_batch c texts = texts.map (get_spam_probability c) := by
    intro texts
    cases hf : c.failing
    · simp [get_spam_probabilities_batch, get_spam_probability, hf]
    · simp only [get_spam_probabilities_batch, get_spam_probability, hf, if_true]
      induction texts with
      | nil => rfl
      | cons t rest ih =>
        simp [List.replicate_succ, ih, get_spam_probability, get_spam_probabilities_batch, hf]
  refine ⟨key, fun t => key [t], fun a b => key [a, b], fun texts => ?_⟩
  rw [key]
  exact List.length_map texts _

/-- C6: the label registry is idempotent — when some listed label already
carries the reserved name, its existing id is returned and no create request
is issued; a create request (with the fixed, UI-hidden body) is issued only
when no listed label matches the name exactly. -/
theorem ensure_label_idempotent (labels : List Label)
    (create : LabelBody → Except String Label) :
    ((∃ l ∈ labels, l.labelName = PROCESSED_LABEL_NAME) →
      (ensure_processed_label (Except.ok labels) create).2 = [] ∧
      ∃ l ∈ labels, l.labelName = PROCESSED_LABEL_NAME ∧
        (ensure_processed_label (Except.ok labels) create).1 = some l.id) ∧
    ((∀ l ∈ labels, l.labelName ≠ PROCESSED_LABEL_NAME) →
      (ensure_processed_label (Except.ok labels) create).2 = [label_body]) ∧
    label_body.labelName = PROCESSED_LABEL_NAME ∧
    label_body.labelListVisibility = "labelHide" ∧
    label_body.messageListVisibility = "hide" := by
  refine ⟨?_, ?_, rfl, rfl, rfl⟩
  · intro hex
    have hsome : (labels.find? (fun l => l.labelName == PROCESSED_LABEL_NAME)).isSome := by
      rw [List.find?_isSome]
      obtain ⟨l, hl, hn⟩ := hex
      exact ⟨l, hl, by simp [hn]⟩
    obtain ⟨l0, hl0⟩ := Option.isSome_iff_exists.mp hsome
    refine ⟨by simp [ensure_processed_label, hl0],
      l0, List.mem_of_find?_eq_some hl0, ?_, by simp [ensure_processed_label, hl0]⟩
    have := List.find?_some hl0
    simpa using this
  · intro hall
    have hnone : labels.find? (fun l => l.labelName == PROCESSED_LABEL_NAME) = none := by
      rw [List.find?_eq_none]
      intro l hl
      simp [hall l hl]
    cases hc : create label_body <;> simp [ensure_processed_label, hnone, hc]

/-- Witness for C6: with one listed label already named `ML_PROCESSED`, the
registry issues no create request even though the create call would fail. -/
theorem ensure_label_idempotent_witness :
    (ensure_processed_label (Except.ok [⟨"Label_3", "ML_PROCESSED"⟩])
      (fun _ => Except.error "create would fail")).2 = [] :=
  ((ensure_label_idempotent [⟨"Label_3", "ML_PROCESSED"⟩]
      (fun _ => Except.error "create would fail")).1
    ⟨⟨"Label_3", "ML_PROCESSED"⟩, by decide, rfl⟩).1

/-- C7: when the label listing fails, or no label matches and the creation
fails, the registry produces no label id, and the run exits before the polling
loop — zero cycles run and no message is processed. -/
theorem label_failure_aborts_run (listLabels : Except String (List Label))
    (create : LabelBody → Except String Label)
    (h : (∃ e, listLabels = Except.error e) ∨
      (∃ labels, listLabels = Except.ok labels ∧
        (∀ l ∈ labels, l.labelName ≠ PROCESSED_LABEL_NAME) ∧
        ∃ e, create label_body = Except.error e)) :
    (ensure_processed_label listLabels create).1 = none ∧
    ∀ (credsOk : Bool) (c : SpamClassifier) (inputs : Nat → CycleInput) (n : Nat),
      poll_gmail credsOk listLabels create c inputs n = [] := by
  have hnone : (ensure_processed_label listLabels create).1 = none := by
    rcases h with ⟨e, rfl⟩ | ⟨labels, rfl, hall, e, he⟩
    · rfl
    · have hfind : labels.find? (fun l => l.labelName == PROCESSED_LABEL_NAME) = none := by
        rw [List.find?_eq_none]
        intro l hl
        simp [hall l hl]
      simp [ensure_processed_label, hfind, he]
  refine ⟨hnone, ?_⟩
  intro credsOk c inputs n
  cases credsOk
  · rfl
  · simp [poll_gmail, hnone]

/-- Witness for C7: with a failing label listing, five loop iterations of the
run produce no cycle at all. -/
theorem label_failure_aborts_run_witness :
    poll_gmail true (Except.error "list failed")
      (fun _ => Except.ok ⟨"Label_9", "ML_PROCESSED"⟩) ⟨fun _ => 1, false⟩
      (fun _ => ⟨Except.ok ["m1"], fun msgId => Except.error ("no fetch for " ++ msgId),
        fun _ _ _ => Except.ok ()⟩) 5 = [] :=
  (label_failure_aborts_run (Except.error "list failed")
    (fun _ => Except.ok ⟨"Label_9", "ML_PROCESSED"⟩)
    (Or.inl ⟨"list failed", rfl⟩)).2 true ⟨fun _ => 1, false⟩
    (fun _ => ⟨Except.ok ["m1"], fun msgId => Except.error ("no fetch for " ++ msgId),
      fun _ _ _ => Except.ok ()⟩) 5

/-- C8: no cycle-level failure terminates the loop. After `n` iterations
exactly `n` cycle results exist — every cycle, including the ones whose list
call or message loop failed, ran to its catch handler — and iteration `n + 1`
always extends the run by exactly the next cycle, whatever that cycle's
environment does. -/
theorem loop_survives_cycle_failures (c : SpamClassifier) (processedLabelId : String)
    (inputs : Nat → CycleInput) (n : Nat) :
    (runCycles c processedLabelId inputs n).length = n ∧
    runCycles c processedLabelId inputs (n + 1) =
      runCycles c processedLabelId inputs n ++ [runCycle c processedLabelId (inputs n)] := by
  refine ⟨?_, rfl⟩
  induction n with
  | zero => rfl
  | succ k ih => simp [runCycles, ih]

/-- C10: a failing label mutation is caught inside `modify_message_labels`,
which turns the provider error into a logged pair and returns normally; and
the mutations submitted by a batch, as well as its cycle-level error, are
exactly the same whatever the modify calls return — a modify failure affects
neither the rest of the batch nor the loop. -/
theorem modify_failure_contained (e msgId : String) (toAdd toRemove : List String) :
    modify_message_labels (fun _ _ _ => Except.error e) msgId toAdd toRemove =
      some (msgId, e) ∧
    modify_message_labels (fun _ _ _ => Except.ok ()) msgId toAdd toRemove = none ∧
    ∀ (c : SpamClassifier) (processedLabelId : String)
      (fetch : String → Except String RawEmail)
      (mc mc' : String → List String → List String → Except String Unit)
      (ids : List String),
      (processBatch c processedLabelId fetch mc ids).attempted =
        (processBatch c processedLabelId fetch mc' ids).attempted ∧
      (processBatch c processedLabelId fetch mc ids).cycleError =
        (processBatch c processedLabelId fetch mc' ids).cycleError := by
  refine ⟨rfl, rfl, ?_⟩
  intro c processedLabelId fetch mc mc' ids
  induction ids with
  | nil => exact ⟨rfl, rfl⟩
  | cons i rest ih =>
    cases hf : fetch i with
    | error err => simp [processBatch, hf]
    | ok raw => simp [processBatch, hf, ih.1, ih.2]

/-- Evaluation helper: a non-trusted message whose classifier probability does
not exceed the threshold is triaged to ham with one classifier call. -/
theorem triage_fst_ham (threshold : ℚ) (classify : String → ℚ) (m : Message)
    (h : isTrusted m.sender = false)
    (hp : ¬ classify (textToClassify m) > threshold) :
    (triageMessage threshold classify m).1 = Decision.Ham := by
  simp [triageMessage, h, hp]

/-- Concrete environment refuting per-message failure isolation: three
candidate ids, where the metadata fetch of `m2` fails and the others
succeed. -/
def exFetch : String → Except String RawEmail := fun msgId =>
  if msgId = "m2" then Except.error "metadata fetch failed"
  else Except.ok ⟨msgId, [⟨"From", "bob@example.biz"⟩, ⟨"Subject", "hello"⟩], "snippet text"⟩

/-- A healthy classifier that reports probability `0` for every text. -/
def exClassifier : SpamClassifier := ⟨fun _ => 0, false⟩

/-- A modify call that always succeeds. -/
def exModify : String → List String → List String → Except String Unit :=
  fun _ _ _ => Except.ok ()

/-- Counterexample to C4: in the batch `[m1, m2, m3]` where only `m2`'s
metadata fetch raises, `m3` — whose fetch would succeed — receives no outcome:
the fetch error propagates out of the message loop to the cycle-level handler,
so only `m1` was processed. -/
theorem per_message_isolation_counterexample :
    exceptOk (exFetch "m3") = true ∧
    (processBatch exClassifier "Label_1" exFetch exModify ["m1", "m2", "m3"]).attempted =
      [⟨"m1", ["Label_1"], []⟩] ∧
    (processBatch exClassifier "Label_1" exFetch exModify ["m1", "m2", "m3"]).cycleError =
      some "metadata fetch failed" := by
  have hf1 : exFetch "m1" =
      Except.ok ⟨"m1", [⟨"From", "bob@example.biz"⟩, ⟨"Subject", "hello"⟩], "snippet text"⟩ := rfl
  have hf2 : exFetch "m2" = Except.error "metadata fetch failed" := rfl
  have hdec : (triageMessage SPAM_CONFIDENCE_THRESHOLD (get_spam_probability exClassifier)
      (parseEmail ⟨"m1", [⟨"From", "bob@example.biz"⟩, ⟨"Subject", "hello"⟩], "snippet text"⟩)).1 =
      Decision.Ham := by
    refine triage_fst_ham _ _ _ (by decide) ?_
    have h0 : get_spam_probability exClassifier
        (textToClassify (parseEmail ⟨"m1", [⟨"From", "bob@example.biz"⟩,
          ⟨"Subject", "hello"⟩], "snippet text"⟩)) = 0 := rfl
    rw [h0]
    norm_num [SPAM_CONFIDENCE_THRESHOLD]
  refine ⟨rfl, ?_, ?_⟩ <;>
    simp [processBatch, hf1, hf2, hdec, applyDecision, modify_message_labels, exModify]

/-- C4 amended: within one cycle, the messages strictly before the first
failing metadata fetch are processed and submitted; the first fetch failure
aborts the remainder of the batch for that cycle and surfaces as the cycle
error (caught at cycle level, so the loop itself continues); the cycle ends
with no error exactly when every fetch in the batch succeeded. -/
theorem per_message_failure_aborts_batch (c : SpamClassifier) (processedLabelId : String)
    (fetch : String → Except String RawEmail)
    (modifyCall : String → List String → List String → Except String Unit)
    (ids : List String) :
    (processBatch c processedLabelId fetch modifyCall ids).attempted =
      (ids.takeWhile (fun i => exceptOk (fetch i))).map
        (outcomeForId c processedLabelId fetch) ∧
    ((processBatch c processedLabelId fetch modifyCall ids).cycleError = none ↔
      ∀ i ∈ ids, exceptOk (fetch i) = true) := by
  induction ids with
  | nil => exact ⟨rfl, by simp [processBatch]⟩
  | cons i rest ih =>
    cases hf : fetch i with
    | error e =>
      refine ⟨by simp [processBatch, hf, List.takeWhile_cons, exceptOk], ?_⟩
      simp only [processBatch, hf]
      constructor
      · intro hcontra
        exact absurd hcontra (by simp)
      · intro hall
        have := hall i (by simp)
        rw [hf] at this
        exact absurd this (by simp [exceptOk])
    | ok raw =>
      refine ⟨?_, ?_⟩
      · simp [processBatch, hf, List.takeWhile_cons, exceptOk, outcomeForId, ih.1]
      · simp only [processBatch, hf]
        rw [ih.2]
        constructor
        · intro hall j hj
          rcases List.mem_cons.mp hj with rfl | hj
          · simp [hf, exceptOk]
          · exact hall j hj
        · intro hall j hj
          exact hall j (List.mem_cons_of_mem _ hj)

end GmailSpam
